import Mathlib

/-!
Verification of the ACP bridge (`/.kiro/skills/kiro-acp/client.py`): a shallow
embedding of the `TerminalManager` and `KiroACP` classes, followed by theorems
settling the specified properties of the dispatcher, the read loop, the
terminal registry and the prompt consumers.

Python `dict` values are modelled as association lists of string keys; the
Python value `None` is `JVal.null`; thread-safe queues are modelled as lists
in FIFO order (`put` appends at the right, `get` takes from the left).
-/

namespace KiroAcp

/-- A decoded JSON / Python value, as produced by `json.loads` and passed
around by `client.py`.  `null` doubles as the Python `None` (they are the
same runtime object in the source). -/
inductive JVal where
  | null : JVal
  | bool (b : Bool) : JVal
  | num (n : Int) : JVal
  | str (s : String) : JVal
  | arr (xs : List JVal) : JVal
  | obj (fields : List (String × JVal)) : JVal
deriving Repr

mutual

/-- Structural equality on `JVal`, mirroring Python `==` on decoded JSON. -/
def JVal.beq : JVal → JVal → Bool
  | .null, .null => true
  | .bool a, .bool b => a == b
  | .num a, .num b => a == b
  | .str a, .str b => a == b
  | .arr xs, .arr ys => JVal.beqList xs ys
  | .obj xs, .obj ys => JVal.beqFields xs ys
  | _, _ => false

def JVal.beqList : List JVal → List JVal → Bool
  | [], [] => true
  | x :: xs, y :: ys => JVal.beq x y && JVal.beqList xs ys
  | _, _ => false

def JVal.beqFields : List (String × JVal) → List (String × JVal) → Bool
  | [], [] => true
  | (k, v) :: xs, (l, w) :: ys => k == l && JVal.beq v w && JVal.beqFields xs ys
  | _, _ => false

end

instance : BEq JVal := ⟨JVal.beq⟩

/-- Model of `d.get(key)` on a Python dict: the value of the first binding of `key`,
if any.  On a non-dict this models the absence of the key (the source only
applies it to decoded objects). -/
def JVal.get : JVal → String → Option JVal
  | .obj fields, k => fields.lookup k
  | _, _ => none

/-- Model of `d.get(key, default)`. -/
def JVal.getD (v : JVal) (k : String) (dflt : JVal) : JVal :=
  (v.get k).getD dflt

/-- Model of `key in d` on a Python dict. -/
def JVal.hasKey (v : JVal) (k : String) : Bool :=
  (v.get k).isSome

/-- Python truthiness of a decoded JSON value (`if x:`): `None`, `False`,
`0`, `""`, `[]` and `{}` are falsy, everything else truthy. -/
def JVal.truthy : JVal → Bool
  | .null => false
  | .bool b => b
  | .num n => n != 0
  | .str s => s != ""
  | .arr xs => !xs.isEmpty
  | .obj fields => !fields.isEmpty

/-- Python `a or b` restricted to decoded JSON values. -/
def pyOr (a b : JVal) : JVal := if a.truthy then a else b

/-- Model of `d[key] = value` on a Python dict: replace the first binding of `key`
in place, or append a fresh binding (insertion order is preserved, as in
CPython). -/
def setKey : List (String × JVal) → String → JVal → List (String × JVal)
  | [], k, v => [(k, v)]
  | (l, w) :: rest, k, v =>
      if l = k then (l, v) :: rest else (l, w) :: setKey rest k v

/-- Model of `v == "s"` where the right-hand side is a string literal. -/
def JVal.isStr (v : JVal) (s : String) : Bool :=
  match v with
  | .str t => t == s
  | _ => false

/-! ## TerminalManager

`TerminalManager` (client.py lines 43–143) keeps a registry
`terminalId -> {process, output, max_bytes, truncated, reader_thread}`.
The OS process handle is external; we carry its current `poll()` status as
an `Option Int` snapshot (`none` = still running).  The output buffer is the
raw byte string (`List Nat`). -/

/-- One entry of `TerminalManager._terminals`. -/
structure Terminal where
  output : List Nat
  maxBytes : Nat
  truncated : Bool
  /-- current `process.poll()` result: `none` while running, `some c` once
  exited with code `c`. -/
  exitCode : Option Int
deriving Repr, DecidableEq

/-- The terminal registry `TerminalManager._terminals`. -/
abbrev TerminalRegistry := List (String × Terminal)

/-- Model of `max_output_bytes or 1_000_000` (create, line 74): Python `or` falls to
the default when the argument is `None` — or falsy, i.e. `0`. -/
def capOrDefault : Option Nat → Nat
  | none => 1000000
  | some n => if n = 0 then 1000000 else n

/-- Embedding of `TerminalManager.create` (lines 51–98), restricted to its registry
effect: allocate a fresh id (`uuid4`, supplied by the caller as
`terminalId`) and register a terminal with an empty buffer, the capped
byte limit, `truncated = False` and a freshly spawned (still running)
process.  The spawned shell command itself is external. -/
def TerminalManager.create (ts : TerminalRegistry) (terminalId : String)
    (maxOutputBytes : Option Nat) : TerminalRegistry :=
  ts ++ [(terminalId,
    { output := []
      maxBytes := capOrDefault maxOutputBytes
      truncated := false
      exitCode := none })]

/-- One iteration of the per-terminal `reader` thread body (lines 80–89)
processing one non-empty chunk read from the pipe:
`output += chunk; if len(output) > max_bytes: output = output[:max_bytes];
truncated = True`. -/
def readerStep (t : Terminal) (chunk : List Nat) : Terminal :=
  if (t.output ++ chunk).length > t.maxBytes then
    { t with output := (t.output ++ chunk).take t.maxBytes, truncated := true }
  else
    { t with output := t.output ++ chunk }

/-- The whole reader thread: fold `readerStep` over the successive chunks
returned by `proc.stdout.read(4096)` until EOF. -/
def readerRun (t : Terminal) (chunks : List (List Nat)) : Terminal :=
  chunks.foldl readerStep t

/-- Feed one chunk to the terminal registered under `tid` (the reader
thread mutates the shared registry entry in place). -/
def feedChunk (ts : TerminalRegistry) (tid : String) (chunk : List Nat) :
    TerminalRegistry :=
  ts.map fun kv => if kv.1 = tid then (kv.1, readerStep kv.2 chunk) else kv

/-- Model of `bytes.decode("utf-8", errors="replace")`, per byte: ASCII
bytes decode to themselves, any other byte to the replacement character.
This agrees with CPython on ASCII buffers, which is all the development
evaluates it on. -/
def decodeReplace (bs : List Nat) : String :=
  String.mk (bs.map fun b => if b < 128 then Char.ofNat b else '�')

/-- Embedding of `TerminalManager.get_output` (lines 100–112). -/
def TerminalManager.get_output (ts : TerminalRegistry) (tid : String) : JVal :=
  match ts.lookup tid with
  | none =>
      .obj [("output", .str ""), ("exitCode", .num (-1)),
            ("truncated", .bool false)]
  | some t =>
      .obj [("output", .str (decodeReplace t.output)),
            ("exitCode", match t.exitCode with
                         | none => .null
                         | some c => .num c),
            ("truncated", .bool t.truncated)]

/-- Embedding of `TerminalManager.wait_for_exit` (lines 114–128).  The blocking
`process.wait(timeout)` call is external: its outcome is passed as
`waitOutcome` (`some c` = process exited with code `c`, `none` =
`TimeoutExpired`, upon which the process is killed and `-1` reported).
A missing id returns `{"exitCode": -1}` before ever waiting. -/
def TerminalManager.wait_for_exit (ts : TerminalRegistry) (tid : String)
    (waitOutcome : Option Int) : JVal :=
  match ts.lookup tid with
  | none => .obj [("exitCode", .num (-1))]
  | some _ =>
      match waitOutcome with
      | some c => .obj [("exitCode", .num c)]
      | none => .obj [("exitCode", .num (-1))]

/-- Embedding of `TerminalManager.kill` (lines 130–137).  The registry is never
mutated; the only effect is a signal to the OS process, emitted exactly
when the id is registered and its process still runs.  We return that
signal as a `Bool` alongside the (unchanged) registry. -/
def TerminalManager.kill (ts : TerminalRegistry) (tid : String) :
    TerminalRegistry × Bool :=
  match ts.lookup tid with
  | none => (ts, false)
  | some t => (ts, t.exitCode.isNone)

/-- Embedding of `TerminalManager.release` (lines 139–143): `kill` then
`pop(terminal_id, None)`. -/
def TerminalManager.release (ts : TerminalRegistry) (tid : String) :
    TerminalRegistry × Bool :=
  let (ts1, sig) := TerminalManager.kill ts tid
  (ts1.filter (fun kv => kv.1 ≠ tid), sig)

/-! ## KiroACP dispatcher

`KiroACP._dispatch` (client.py lines 387–523) routes one decoded message.
The mutable instance state it touches is `self._pending` (id → queue),
`self._notifications`, the terminal registry and `self.cwd`; replies sent
through `self._respond` are collected as `(id, result)` pairs. -/

/-- The `KiroACP` instance state seen by the dispatcher. -/
structure BridgeState where
  /-- Field `self._msg_id`, the last minted request id. -/
  msgId : Nat
  /-- Field `self._pending`: message id → that call's queue, FIFO as a list. -/
  pending : List (Nat × List JVal)
  /-- Field `self._notifications`: the catch-all sink, FIFO as a list. -/
  notifications : List JVal
  /-- Field `self._terminals._terminals`. -/
  terminals : TerminalRegistry
  /-- Field `self.cwd`. -/
  cwd : String
  /-- oracle for `uuid.uuid4()` draws in `TerminalManager.create`. -/
  uuidSource : Nat → String
  /-- how many uuids have been drawn so far. -/
  uuidCount : Nat

/-- Replies emitted through `self._respond(req_id, result)`. -/
abbrev Responses := List (JVal × JVal)

/-- A dispatch outcome: the updated instance state plus the replies written
to the subprocess. -/
structure DispatchResult where
  state : BridgeState
  responses : Responses

/-- The pending-table key a JSON `id` value can resolve to: the table's
keys are the nonnegative integers minted by `_next_id`, so only such an
integer id can hit an entry of `self._pending`. -/
def keyOfId : JVal → Option Nat
  | .num n => if 0 ≤ n then some n.toNat else none
  | _ => none

/-- Model of `q.put(v)` on the queue registered under key `i` (first binding). -/
def putQ : List (Nat × List JVal) → Nat → JVal → List (Nat × List JVal)
  | [], _, _ => []
  | (k, q) :: rest, i, v =>
      if k = i then (k, q ++ [v]) :: rest else (k, q) :: putQ rest i v

/-- Model of `sorted(self._pending.keys(), reverse=True)` followed by taking the
first element: the greatest registered id, if any (lines 496–499). -/
def maxPendingId : List (Nat × List JVal) → Option Nat
  | [] => none
  | (k, _) :: rest =>
      match maxPendingId rest with
      | none => some k
      | some m => some (max k m)

/-- Model of `isinstance(result, dict) and result.get("stopReason")` (line 409). -/
def resultIsTurnEnd (r : JVal) : Bool :=
  match r with
  | .obj _ => (r.getD "stopReason" .null).truthy
  | _ => false

/-- The normalization lookup table (lines 507–512):
`{...}.get(update_type, update_type)`. -/
def normTable (t : JVal) : JVal :=
  if t.isStr "agent_message_chunk" then .str "AgentMessageChunk"
  else if t.isStr "tool_call" then .str "ToolCall"
  else if t.isStr "tool_call_update" then .str "ToolCallUpdate"
  else if t.isStr "turn_end" then .str "TurnEnd"
  else t

/-- Model of `normalized = dict(update); normalized["type"] = norm_type`
(lines 506–513).  The source only reaches this with `update` a decoded
dict; on any other value `dict(update)` would raise. -/
def JVal.setField (v : JVal) (k : String) (w : JVal) : JVal :=
  match v with
  | .obj fs => .obj (setKey fs k w)
  | _ => .obj [(k, w)]

/-- Model of `params.get("terminalId", "")` used as a registry key: the registry's
keys are uuid strings, so only a string value can hit an entry. -/
def tidOf : JVal → String
  | .str s => s
  | _ => ""

/-- Model of `params.get("maxOutputBytes")` as passed to `TerminalManager.create`:
absent or `null` means unset (`None`); a JSON integer is the cap. -/
def capArg : Option JVal → Option Nat
  | some (.num n) => some n.toNat
  | _ => none

/-- Model of `params.get("options", [])` (line 461), iterated as a list. -/
def optionsOf (v : JVal) : List JVal :=
  match v with
  | .arr xs => xs
  | _ => []

/-- One scan loop of the permission handler (lines 464–472): the
`optionId` of the first option whose `kind` equals `kind`, or `None` when
no option matches (the loop `break`s at the first match, keeping that
option's `optionId` even when it is itself falsy). -/
def firstKind (opts : List JVal) (kind : String) : JVal :=
  match opts with
  | [] => .null
  | o :: rest =>
      if (o.getD "kind" .null).isStr kind then o.getD "optionId" .null
      else firstKind rest kind

/-- The whole auto-approval policy (lines 461–474): scan for
`allow_always`, rescan for `allow_once` whenever the first answer is falsy
(`if not option_id:`), and finally fall back to the first option's
`optionId` when still falsy and options exist. -/
def choosePermission (opts : List JVal) : JVal :=
  let o1 := firstKind opts "allow_always"
  let o2 := if o1.truthy then o1 else firstKind opts "allow_once"
  if o2.truthy then o2
  else
    match opts with
    | [] => o2
    | o :: _ => o.getD "optionId" .null

/-- The item the dispatcher pushes onto the routed pending call for one
session update (lines 492–518): look up `sessionUpdate` falling back to
`type`, normalize via the lookup table, and deliver the close-sentinel
when the normalized type is the end-of-turn tag, else the update with its
`type` set to the canonical name. -/
def deliveredUpdate (update : JVal) : JVal :=
  let nt := normTable
    (pyOr (update.getD "sessionUpdate" .null) (update.getD "type" (.str "")))
  if nt.isStr "TurnEnd" then JVal.null else update.setField "type" nt

/-- Embedding of `KiroACP._dispatch` (lines 387–523).  `waitOutcome` is the oracle for
the external `process.wait(timeout)` call that a `terminal/wait_for_exit`
request would perform (`some c` = exited with `c`, `none` = timeout). -/
def dispatch (s : BridgeState) (msg : JVal) (waitOutcome : Option Int) :
    DispatchResult :=
  -- rpc response (has id + result/error) — response to our request
  if msg.hasKey "id" && (msg.hasKey "result" || msg.hasKey "error") then
    match keyOfId (msg.getD "id" .null) with
    | none => ⟨s, []⟩
    | some i =>
        match s.pending.lookup i with
        | none => ⟨s, []⟩  -- no pending call for this id: drop silently
        | some _ =>
            if msg.hasKey "error" then
              let errObj : JVal := .obj [("error", msg.getD "error" .null)]
              ⟨{ s with pending := putQ s.pending i errObj }, []⟩
            else
              let result := msg.getD "result" (.obj [])
              if resultIsTurnEnd result then
                ⟨{ s with pending := putQ s.pending i .null }, []⟩
              else
                ⟨{ s with pending := putQ s.pending i result }, []⟩
  -- rpc request from agent (has id + method)
  else if msg.hasKey "id" && msg.hasKey "method" then
    let reqId := msg.getD "id" .null
    let method := msg.getD "method" .null
    let params := msg.getD "params" (.obj [])
    if method.isStr "terminal/create" then
      let tid := s.uuidSource s.uuidCount
      ⟨{ s with
          terminals := TerminalManager.create s.terminals tid
            (capArg (params.get "maxOutputBytes")),
          uuidCount := s.uuidCount + 1 },
       [(reqId, .obj [("terminalId", .str tid)])]⟩
    else if method.isStr "terminal/output" then
      ⟨s, [(reqId, TerminalManager.get_output s.terminals
              (tidOf (params.getD "terminalId" (.str ""))))]⟩
    else if method.isStr "terminal/wait_for_exit" then
      ⟨s, [(reqId, TerminalManager.wait_for_exit s.terminals
              (tidOf (params.getD "terminalId" (.str ""))) waitOutcome)]⟩
    else if method.isStr "terminal/kill" then
      ⟨{ s with terminals :=
          (TerminalManager.kill s.terminals
            (tidOf (params.getD "terminalId" (.str "")))).1 },
       [(reqId, .obj [])]⟩
    else if method.isStr "terminal/release" then
      ⟨{ s with terminals :=
          (TerminalManager.release s.terminals
            (tidOf (params.getD "terminalId" (.str "")))).1 },
       [(reqId, .obj [])]⟩
    else if method.isStr "session/request_permission" then
      ⟨s, [(reqId, .obj [("outcome", .str "selected"),
                         ("optionId",
                          choosePermission (optionsOf
                            (params.getD "options" (.arr []))))])]⟩
    else
      -- unknown request — respond with empty result to not block
      ⟨s, [(reqId, .obj [])]⟩
  -- notification (no id) — session updates
  else
    let method := msg.getD "method" (.str "")
    let params := msg.getD "params" (.obj [])
    if method.isStr "session/notification" || method.isStr "session/update" then
      let update := params.getD "update" (.obj [])
      match maxPendingId s.pending with
      | none => ⟨{ s with notifications := s.notifications ++ [update] }, []⟩
      | some mid =>
          ⟨{ s with pending := putQ s.pending mid (deliveredUpdate update) },
           []⟩
    else if (match method with
             | .str m => m.startsWith "_kiro.dev/"
             | _ => false) then
      ⟨s, []⟩  -- internal kiro metadata notifications — ignore
    else
      ⟨{ s with notifications := s.notifications ++ [msg] }, []⟩

/-- Embedding of `KiroACP._extract_text` (lines 525–547). -/
def extract_text (update : JVal) : Option JVal :=
  match update with
  | .obj _ =>
      let utype :=
        pyOr (update.getD "type" (.str "")) (update.getD "sessionUpdate" (.str ""))
      if utype.isStr "AgentMessageChunk" || utype.isStr "agent_message_chunk" then
        match update.getD "content" (.str "") with
        | .str c => some (.str c)
        | .obj fs =>
            if ((JVal.obj fs).getD "type" .null).isStr "text" then
              some ((JVal.obj fs).getD "text" (.str ""))
            else none
        | .arr cs =>
            some (.str (String.join (cs.map fun c =>
              match (c.getD "type" .null).isStr "text", c.getD "text" (.str "") with
              | true, .str t => t
              | _, _ => ""
              )))
        | _ => none
      else none
  | _ => none

/-! ## Read loop and session-facade calls -/

/-- The close-sentinel broadcast at read-loop exit (lines 383–385):
`for q in self._pending.values(): q.put(None)`. -/
def broadcastSentinel (ps : List (Nat × List JVal)) : List (Nat × List JVal) :=
  ps.map fun kq => (kq.1, kq.2 ++ [JVal.null])

/-- The body of `KiroACP._read_loop` (lines 358–381): dispatch each
successfully decoded newline-delimited frame in order (malformed lines are
skipped by the `json.JSONDecodeError` handler and never reach
`_dispatch`), collecting the replies written back.  Each frame carries the
wait oracle its handling would observe. -/
def runFrames (s : BridgeState) (frames : List (JVal × Option Int)) :
    BridgeState × Responses :=
  frames.foldl
    (fun acc mw =>
      let r := dispatch acc.1 mw.1 mw.2
      (r.state, acc.2 ++ r.responses))
    (s, [])

/-- Embedding of `KiroACP._read_loop` (lines 358–385) in full: the loop over the frames
decoded before the stream ends (EOF, read exception or subprocess death
all exit the loop — the end of the frame list), followed by the
close-sentinel broadcast over every still-pending call. -/
def read_loop (s : BridgeState) (frames : List (JVal × Option Int)) :
    BridgeState × Responses :=
  let r := runFrames s frames
  ({ r.1 with pending := broadcastSentinel r.1.pending }, r.2)

/-- Model of `self._pending.setdefault(msg_id, queue.Queue())` (lines 258, 295):
keep an existing binding, else register a fresh empty queue. -/
def setdefaultQ (ps : List (Nat × List JVal)) (i : Nat) :
    List (Nat × List JVal) :=
  if (ps.lookup i).isSome then ps else ps ++ [(i, [])]

/-- Model of `self._pending.pop(msg_id, None)` (lines 280, 306, 352). -/
def popQ (ps : List (Nat × List JVal)) (i : Nat) : List (Nat × List JVal) :=
  ps.filter fun kv => kv.1 ≠ i

/-- An item that ends `prompt`'s consumption loop (lines 266–273): the
close-sentinel `None`, or a dict whose `"type"` equals `"result"`. -/
def isTerminalItem : JVal → Bool
  | .null => true
  | .obj fs => ((JVal.obj fs).getD "type" .null).isStr "result"
  | _ => false

/-- The consumption loop of `KiroACP.prompt` (lines 260–278) over the
items delivered on its queue, in order; the end of the list is the
`queue.Empty` timeout.  A `None` item or a `"result"`-typed dict breaks
the loop; a dict contributes its extracted text when truthy; a plain
string is appended as is; anything else is skipped. -/
def promptLoop : List JVal → List JVal → List JVal
  | [], acc => acc
  | .null :: _, acc => acc
  | .obj fs :: rest, acc =>
      if ((JVal.obj fs).getD "type" .null).isStr "result" then acc
      else
        match extract_text (.obj fs) with
        | some t =>
            if t.truthy then promptLoop rest (acc ++ [t])
            else promptLoop rest acc
        | none => promptLoop rest acc
  | .str c :: rest, acc => promptLoop rest (acc ++ [.str c])
  | _ :: rest, acc => promptLoop rest acc

/-- Model of `"".join(chunks)` (line 281); every chunk the source ever appends is a
Python `str`. -/
def pyJoin (vs : List JVal) : String :=
  String.join (vs.map fun v => match v with | .str s => s | _ => "")

/-- Embedding of `KiroACP.prompt` (lines 239–281): mint a fresh id, send the
`session/prompt` request, register the pending queue, consume the
delivered items, then drop the pending entry and return the joined
chunks.  `delivered` is the oracle for what arrives on the queue before
the final timeout. -/
def prompt (s : BridgeState) (delivered : List JVal) : String × BridgeState :=
  let mid := s.msgId + 1
  let s1 := { s with msgId := mid, pending := setdefaultQ s.pending mid }
  (pyJoin (promptLoop delivered []),
   { s1 with pending := popQ s1.pending mid })

/-- The text-bearing chunks among a run of delivered items, as the claim
describes `prompt`'s accumulation: every plain string, and every dict
whose extracted text is truthy. -/
def textChunks (delivered : List JVal) : List JVal :=
  delivered.filterMap fun item =>
    match item with
    | .str c => some (.str c)
    | .obj fs =>
        match extract_text (.obj fs) with
        | some t => if t.truthy then some t else none
        | none => none
    | _ => none

/-- The outcome of `KiroACP._request` (lines 340–356). -/
inductive ReqOutcome where
  | timeout : ReqOutcome
  | rpcError (payload : JVal) : ReqOutcome
  | ok (v : JVal) : ReqOutcome
deriving Repr

/-- Embedding of `KiroACP._request` (lines 340–356): `resp` is what the blocking
`result_queue.get(timeout=...)` delivers (`none` = `queue.Empty`, raising
`TimeoutError`); a dict response carrying an `"error"` key raises
`RuntimeError` wrapping the payload; anything else is returned. -/
def request (resp : Option JVal) : ReqOutcome :=
  match resp with
  | none => .timeout
  | some r =>
      if (match r with | .obj _ => r.hasKey "error" | _ => false) then
        .rpcError (r.getD "error" .null)
      else .ok r

/-- The sequence of updates yielded by `KiroACP.prompt_stream`
(lines 283–306) given the items delivered on its queue (list end =
timeout): every item up to, and not including, the first close-sentinel
`None` is yielded. -/
def prompt_stream (delivered : List JVal) : List JVal :=
  delivered.takeWhile fun item =>
    match item with
    | .null => false
    | _ => true

/-- A concrete idle instance state, used to instantiate hypotheses. -/
def bridge0 : BridgeState :=
  { msgId := 0, pending := [], notifications := [], terminals := [],
    cwd := "/w", uuidSource := fun _ => "u", uuidCount := 0 }

/-- State `bridge0` with one registered pending call (id 3). -/
def bridge1 : BridgeState := { bridge0 with pending := [(3, [])] }

/-- A concrete current-form chunk notification frame, used to instantiate
hypotheses. -/
def chunkFrame : JVal :=
  .obj [("method", .str "session/update"),
        ("params", .obj [("update",
          .obj [("sessionUpdate", .str "agent_message_chunk"),
                ("content", .obj [("type", .str "text"),
                                  ("text", .str "hi")])])])]

/-- What `chunkFrame`'s embedded update normalizes to. -/
def chunkNorm : JVal :=
  .obj [("sessionUpdate", .str "agent_message_chunk"),
        ("content", .obj [("type", .str "text"), ("text", .str "hi")]),
        ("type", .str "AgentMessageChunk")]

/-! ## Helper lemmas -/

/-- Lemma: `putQ` appends to the queue that a lookup of the same key sees. -/
theorem putQ_lookup (ps : List (Nat × List JVal)) (i : Nat) (v : JVal) :
    (putQ ps i v).lookup i = (ps.lookup i).map (fun q => q ++ [v]) := by
  induction ps with
  | nil => rfl
  | cons kq rest ih =>
      obtain ⟨k, q⟩ := kq
      by_cases hk : k = i
      · subst hk; simp [putQ, List.lookup]
      · have hb : (i == k) = false := by
          simpa using Ne.symm hk
        simp [putQ, hk, List.lookup, hb, ih]

/-- The sentinel broadcast appends `null` to the queue at every key. -/
theorem broadcastSentinel_lookup (ps : List (Nat × List JVal)) (i : Nat) :
    (broadcastSentinel ps).lookup i =
      (ps.lookup i).map (fun q => q ++ [JVal.null]) := by
  induction ps with
  | nil => rfl
  | cons kq rest ih =>
      obtain ⟨k, q⟩ := kq
      by_cases hk : i == k
      · simp [broadcastSentinel, List.lookup, hk]
      · simp only [Bool.not_eq_true] at hk
        simp [broadcastSentinel, List.lookup, hk] at ih ⊢
        exact ih

/-- Lemma: `maxPendingId` is `none` exactly on the empty table. -/
theorem maxPendingId_eq_none (ps : List (Nat × List JVal)) :
    maxPendingId ps = none ↔ ps = [] := by
  cases ps with
  | nil => simp [maxPendingId]
  | cons kq rest =>
      simp only [maxPendingId]
      constructor
      · intro h
        cases hr : maxPendingId rest <;> simp [hr] at h
      · intro h; exact absurd h (by simp)

/-- The id `maxPendingId` returns is registered and is the greatest
registered id. -/
theorem maxPendingId_mem_le (ps : List (Nat × List JVal)) (mid : Nat)
    (h : maxPendingId ps = some mid) :
    mid ∈ ps.map Prod.fst ∧ ∀ k ∈ ps.map Prod.fst, k ≤ mid := by
  induction ps generalizing mid with
  | nil => simp [maxPendingId] at h
  | cons kq rest ih =>
      obtain ⟨k, q⟩ := kq
      simp only [maxPendingId] at h
      cases hr : maxPendingId rest with
      | none =>
          rw [hr] at h
          obtain rfl : k = mid := by simpa using h
          obtain rfl : rest = [] := (maxPendingId_eq_none rest).mp hr
          simp
      | some m =>
          rw [hr] at h
          obtain rfl : max k m = mid := by simpa using h
          obtain ⟨hmem, hle⟩ := ih m hr
          constructor
          · rcases Nat.le_total k m with hkm | hmk
            · simp only [List.map_cons, List.mem_cons]
              exact Or.inr (by rwa [Nat.max_eq_right hkm])
            · simp [Nat.max_eq_left hmk]
          · intro k' hk'
            simp only [List.map_cons, List.mem_cons] at hk'
            rcases hk' with rfl | hk'
            · exact Nat.le_max_left _ _
            · exact le_trans (hle k' hk') (Nat.le_max_right _ _)

/-- After `popQ` the key no longer resolves. -/
theorem popQ_lookup (ps : List (Nat × List JVal)) (i : Nat) :
    (popQ ps i).lookup i = none := by
  induction ps with
  | nil => rfl
  | cons kq rest ih =>
      obtain ⟨k, q⟩ := kq
      by_cases hk : k = i
      · simpa [popQ, hk] using ih
      · have hb : (i == k) = false := by simpa using Ne.symm hk
        simpa [popQ, hk, List.lookup, hb] using ih

/-- The dispatcher on a well-formed session-update notification: route to
the greatest pending id when one exists, else to the catch-all sink. -/
theorem dispatch_notification (s : BridgeState) (m : String) (pv : JVal)
    (w : Option Int)
    (hm : m = "session/update" ∨ m = "session/notification") :
    dispatch s (.obj [("method", .str m), ("params", pv)]) w =
      match maxPendingId s.pending with
      | none =>
          ⟨{ s with
              notifications := s.notifications ++ [pv.getD "update" (.obj [])] },
           []⟩
      | some mid =>
          ⟨{ s with
              pending := putQ s.pending mid
                (deliveredUpdate (pv.getD "update" (.obj []))) },
           []⟩ := by
  rcases hm with rfl | rfl <;>
  · unfold dispatch
    cases hmax : maxPendingId s.pending <;>
      simp [JVal.hasKey, JVal.get, JVal.getD, List.lookup, JVal.isStr, hmax]

/-! ## Theorems: dispatcher routing -/

/-- C3: a notification (no `id`) whose method is `session/update` or
`session/notification` is routed, when at least one pending call exists,
to the queue of the pending call with the greatest id (`maxPendingId`
indeed returns the greatest registered id); the item delivered is the
close-sentinel `null` when the normalized update type is the end-of-turn
tag and the normalized update otherwise; with no pending call the update
goes to the catch-all notification sink. -/
theorem C3_notification_routing (s : BridgeState) (m : String) (pv : JVal)
    (w : Option Int) (mid : Nat) (q : List JVal)
    (hm : m = "session/update" ∨ m = "session/notification") :
    (maxPendingId s.pending = some mid →
      mid ∈ s.pending.map Prod.fst ∧ ∀ k ∈ s.pending.map Prod.fst, k ≤ mid) ∧
    (maxPendingId s.pending = some mid → s.pending.lookup mid = some q →
      (dispatch s (.obj [("method", .str m), ("params", pv)])
          w).state.pending.lookup mid =
        some (q ++ [deliveredUpdate (pv.getD "update" (.obj []))])) ∧
    (∀ u : JVal,
      normTable (pyOr (u.getD "sessionUpdate" .null) (u.getD "type" (.str "")))
          = .str "TurnEnd" →
      deliveredUpdate u = .null) ∧
    (∀ u : JVal,
      normTable (pyOr (u.getD "sessionUpdate" .null) (u.getD "type" (.str "")))
          ≠ .str "TurnEnd" →
      deliveredUpdate u = u.setField "type"
        (normTable (pyOr (u.getD "sessionUpdate" .null)
          (u.getD "type" (.str ""))))) ∧
    (s.pending = [] →
      dispatch s (.obj [("method", .str m), ("params", pv)]) w =
        ⟨{ s with
            notifications := s.notifications ++ [pv.getD "update" (.obj [])] },
         []⟩) := by
  refine ⟨maxPendingId_mem_le s.pending mid, ?_, ?_, ?_, ?_⟩
  · intro hmax hq
    have Hn := dispatch_notification s m pv w hm
    rw [hmax] at Hn
    rw [Hn]
    show (putQ s.pending mid _).lookup mid = _
    rw [putQ_lookup, hq]
    rfl
  · intro u hu
    simp [deliveredUpdate, hu, JVal.isStr]
  · intro u hu
    have hf : (normTable (pyOr (u.getD "sessionUpdate" .null)
        (u.getD "type" (.str "")))).isStr "TurnEnd" = false := by
      cases hv : normTable (pyOr (u.getD "sessionUpdate" .null)
          (u.getD "type" (.str ""))) <;> simp [JVal.isStr]
      next t =>
        intro ht
        exact hu (by rw [hv, ht])
    simp [deliveredUpdate, hf]
  · intro hemp
    have Hn := dispatch_notification s m pv w hm
    have hmax : maxPendingId s.pending = none := by
      rw [hemp]; rfl
    rw [hmax] at Hn
    exact Hn

/-- C3 witness: a chunk update routed to the single pending call (id 3)
of a concrete state. -/
theorem C3_notification_routing_witness :
    ((dispatch bridge1
      (.obj [("method", .str "session/update"),
             ("params", .obj [("update",
               .obj [("sessionUpdate", .str "agent_message_chunk"),
                     ("content",
                      .obj [("type", .str "text"),
                            ("text", .str "hi")])])])]) none)).state.pending.lookup 3 =
      some [.obj [("sessionUpdate", .str "agent_message_chunk"),
                  ("content", .obj [("type", .str "text"),
                                    ("text", .str "hi")]),
                  ("type", .str "AgentMessageChunk")]] := by
  have H := C3_notification_routing bridge1 "session/update"
    (.obj [("update",
      .obj [("sessionUpdate", .str "agent_message_chunk"),
            ("content", .obj [("type", .str "text"),
                              ("text", .str "hi")])])])
    none 3 [] (Or.inl rfl)
  exact (H.2.1 rfl rfl).trans (by rfl)

/-- C5: the legacy update form `{type: "AgentMessageChunk", content: X}`
and the current form `{sessionUpdate: "agent_message_chunk", content:
{type: "text", text: X}}` are dispatched to the routed queue as
normalized chunks carrying the same canonical `type` tag
`"AgentMessageChunk"`, and `_extract_text` returns the same text `X` for
both normalized chunks. -/
theorem C5_legacy_current_same_text (X : String) (s : BridgeState)
    (w : Option Int) (mid : Nat) (q : List JVal)
    (h1 : maxPendingId s.pending = some mid)
    (h2 : s.pending.lookup mid = some q) :
    (dispatch s (.obj [("method", .str "session/update"),
        ("params", .obj [("update",
          .obj [("type", .str "AgentMessageChunk"),
                ("content", .str X)])])]) w).state.pending.lookup mid =
      some (q ++ [.obj [("type", .str "AgentMessageChunk"),
                        ("content", .str X)]]) ∧
    (dispatch s (.obj [("method", .str "session/update"),
        ("params", .obj [("update",
          .obj [("sessionUpdate", .str "agent_message_chunk"),
                ("content", .obj [("type", .str "text"),
                                  ("text", .str X)])])])])
        w).state.pending.lookup mid =
      some (q ++ [.obj [("sessionUpdate", .str "agent_message_chunk"),
                        ("content", .obj [("type", .str "text"),
                                          ("text", .str X)]),
                        ("type", .str "AgentMessageChunk")]]) ∧
    (JVal.obj [("type", .str "AgentMessageChunk"),
               ("content", .str X)]).get "type" =
      some (.str "AgentMessageChunk") ∧
    (JVal.obj [("sessionUpdate", .str "agent_message_chunk"),
               ("content", .obj [("type", .str "text"), ("text", .str X)]),
               ("type", .str "AgentMessageChunk")]).get "type" =
      some (.str "AgentMessageChunk") ∧
    extract_text (.obj [("type", .str "AgentMessageChunk"),
                        ("content", .str X)]) = some (.str X) ∧
    extract_text (.obj [("sessionUpdate", .str "agent_message_chunk"),
                        ("content", .obj [("type", .str "text"),
                                          ("text", .str X)]),
                        ("type", .str "AgentMessageChunk")]) =
      some (.str X) := by
  refine ⟨?_, ?_, rfl, rfl, rfl, rfl⟩
  · have Hn := dispatch_notification s "session/update"
      (.obj [("update", .obj [("type", .str "AgentMessageChunk"),
                              ("content", .str X)])]) w (Or.inl rfl)
    rw [h1] at Hn
    rw [Hn]
    show (putQ s.pending mid _).lookup mid = _
    rw [putQ_lookup, h2]
    rfl
  · have Hn := dispatch_notification s "session/update"
      (.obj [("update", .obj [("sessionUpdate", .str "agent_message_chunk"),
        ("content", .obj [("type", .str "text"), ("text", .str X)])])])
      w (Or.inl rfl)
    rw [h1] at Hn
    rw [Hn]
    show (putQ s.pending mid _).lookup mid = _
    rw [putQ_lookup, h2]
    rfl

/-- C5 witness: both forms carrying `"hi"`, routed in a concrete state. -/
theorem C5_legacy_current_same_text_witness :
    (dispatch bridge1 (.obj [("method", .str "session/update"),
        ("params", .obj [("update",
          .obj [("type", .str "AgentMessageChunk"),
                ("content", .str "hi")])])]) none).state.pending.lookup 3 =
      some [.obj [("type", .str "AgentMessageChunk"),
                  ("content", .str "hi")]] ∧
    extract_text (.obj [("type", .str "AgentMessageChunk"),
                        ("content", .str "hi")]) = some (.str "hi") ∧
    extract_text (.obj [("sessionUpdate", .str "agent_message_chunk"),
                        ("content", .obj [("type", .str "text"),
                                          ("text", .str "hi")]),
                        ("type", .str "AgentMessageChunk")]) =
      some (.str "hi") := by
  have H := C5_legacy_current_same_text "hi" bridge1 none 3 [] rfl rfl
  exact ⟨H.1, H.2.2.2.2.1, H.2.2.2.2.2⟩

/-- The dispatcher on an error response `{id, error}`. -/
theorem dispatch_response_error (s : BridgeState) (i : Nat) (e : JVal)
    (w : Option Int) :
    dispatch s (.obj [("id", .num i), ("error", e)]) w =
      match s.pending.lookup i with
      | none => ⟨s, []⟩
      | some _ =>
          ⟨{ s with pending := putQ s.pending i (.obj [("error", e)]) }, []⟩ := by
  unfold dispatch
  have hkey : keyOfId (JVal.num (i : Int)) = some i := by
    simp [keyOfId]
  cases hq : s.pending.lookup i <;>
    simp [JVal.hasKey, JVal.get, JVal.getD, List.lookup, hkey, hq]

/-- The dispatcher on a success response `{id, result}`. -/
theorem dispatch_response_result (s : BridgeState) (i : Nat) (r : JVal)
    (w : Option Int) :
    dispatch s (.obj [("id", .num i), ("result", r)]) w =
      match s.pending.lookup i with
      | none => ⟨s, []⟩
      | some _ =>
          if resultIsTurnEnd r then
            ⟨{ s with pending := putQ s.pending i .null }, []⟩
          else
            ⟨{ s with pending := putQ s.pending i r }, []⟩ := by
  unfold dispatch
  have hkey : keyOfId (JVal.num (i : Int)) = some i := by
    simp [keyOfId]
  cases hq : s.pending.lookup i <;>
    simp [JVal.hasKey, JVal.get, JVal.getD, List.lookup, hkey, hq]

/-- C4: a response `{id, error}` for a registered pending call pushes the
error-wrapped dict on that call's queue; a response `{id, result}` pushes
the close-sentinel `null` when the result is a dict carrying a (truthy)
`stopReason` marker and the raw result otherwise; a response whose id has
no registered pending call is dropped with no state change and no reply. -/
theorem C4_response_routing (s : BridgeState) (i : Nat) (e r : JVal)
    (w : Option Int) :
    (∀ q, s.pending.lookup i = some q →
      (dispatch s (.obj [("id", .num i), ("error", e)])
          w).state.pending.lookup i = some (q ++ [.obj [("error", e)]]) ∧
      (resultIsTurnEnd r = true →
        (dispatch s (.obj [("id", .num i), ("result", r)])
            w).state.pending.lookup i = some (q ++ [.null])) ∧
      (resultIsTurnEnd r = false →
        (dispatch s (.obj [("id", .num i), ("result", r)])
            w).state.pending.lookup i = some (q ++ [r]))) ∧
    (s.pending.lookup i = none →
      dispatch s (.obj [("id", .num i), ("error", e)]) w = ⟨s, []⟩ ∧
      dispatch s (.obj [("id", .num i), ("result", r)]) w = ⟨s, []⟩) := by
  constructor
  · intro q hq
    refine ⟨?_, ?_, ?_⟩
    · rw [dispatch_response_error, hq]
      show (putQ s.pending i _).lookup i = _
      rw [putQ_lookup, hq]
      rfl
    · intro ht
      rw [dispatch_response_result, hq]
      show (if resultIsTurnEnd r then _ else _ : DispatchResult).state.pending.lookup i = _
      rw [ht]
      show (putQ s.pending i _).lookup i = _
      rw [putQ_lookup, hq]
      rfl
    · intro ht
      rw [dispatch_response_result, hq]
      show (if resultIsTurnEnd r then _ else _ : DispatchResult).state.pending.lookup i = _
      rw [ht]
      show (putQ s.pending i _).lookup i = _
      rw [putQ_lookup, hq]
      rfl
  · intro hq
    constructor
    · rw [dispatch_response_error, hq]
    · rw [dispatch_response_result, hq]

/-- C4 witness: a concrete single-pending-call state receiving an error
response, an end-of-turn result, a plain result, and (from the idle
state) an unmatched response. -/
theorem C4_response_routing_witness :
    (dispatch bridge1 (.obj [("id", .num 3), ("error", .str "boom")])
        none).state.pending.lookup 3 =
      some [.obj [("error", .str "boom")]] ∧
    (dispatch bridge1
        (.obj [("id", .num 3),
               ("result", .obj [("stopReason", .str "end_turn")])])
        none).state.pending.lookup 3 = some [JVal.null] ∧
    (dispatch bridge1 (.obj [("id", .num 3), ("result", .str "fine")])
        none).state.pending.lookup 3 = some [.str "fine"] ∧
    dispatch bridge0 (.obj [("id", .num 3), ("error", .str "boom")]) none =
      ⟨bridge0, []⟩ := by
  have H1 := (C4_response_routing bridge1 3 (.str "boom")
    (.obj [("stopReason", .str "end_turn")]) none).1 [] rfl
  have H2 := (C4_response_routing bridge1 3 (.str "boom")
    (.str "fine") none).1 [] rfl
  have H3 := (C4_response_routing bridge0 3 (.str "boom")
    (.str "fine") none).2 rfl
  exact ⟨H1.1, H1.2.1 rfl, H2.2.2 rfl, H3.1⟩

/-- C6 counterexample: with options
`[{kind: allow_always, optionId: ""}, {kind: allow_once, optionId: "a"}]`
the handler replies with `"a"`, not with the option id of the first
`allow_always` option (`""`) as the claim states: the Python falsiness
test `if not option_id:` makes the scan fall through whenever the matched
option's id is falsy.  And with an empty options list the reply's result
is `{outcome: selected, optionId: null}`, not the empty result the claim
describes. -/
theorem C6_counterexample :
    (dispatch bridge0 (.obj [("id", .num 7),
        ("method", .str "session/request_permission"),
        ("params", .obj [("options", .arr
          [.obj [("kind", .str "allow_always"), ("optionId", .str "")],
           .obj [("kind", .str "allow_once"),
                 ("optionId", .str "a")]])])]) none).responses =
      [(.num 7, .obj [("outcome", .str "selected"),
                      ("optionId", .str "a")])] ∧
    (dispatch bridge0 (.obj [("id", .num 7),
        ("method", .str "session/request_permission"),
        ("params", .obj [("options", .arr
          [.obj [("kind", .str "allow_always"), ("optionId", .str "")],
           .obj [("kind", .str "allow_once"),
                 ("optionId", .str "a")]])])]) none).responses ≠
      [(.num 7, .obj [("outcome", .str "selected"),
                      ("optionId", .str "")])] ∧
    (dispatch bridge0 (.obj [("id", .num 7),
        ("method", .str "session/request_permission"),
        ("params", .obj [("options", .arr [])])]) none).responses =
      [(.num 7, .obj [("outcome", .str "selected"), ("optionId", .null)])] ∧
    (JVal.obj [("outcome", .str "selected"), ("optionId", .null)]) ≠
      .obj [] := by
  have h1 : (dispatch bridge0 (.obj [("id", .num 7),
      ("method", .str "session/request_permission"),
      ("params", .obj [("options", .arr
        [.obj [("kind", .str "allow_always"), ("optionId", .str "")],
         .obj [("kind", .str "allow_once"),
               ("optionId", .str "a")]])])]) none).responses =
      [(.num 7, .obj [("outcome", .str "selected"),
                      ("optionId", .str "a")])] := rfl
  refine ⟨h1, ?_, rfl, ?_⟩
  · rw [h1]
    intro h
    simp at h
  · intro h
    simp at h

/-- C6 (amended): the permission handler replies immediately, under the
request's id, with `outcome: selected` and an option id chosen by a
sequential scan with fallthrough.  The scan breaks at the *first* option
of the kind sought and never looks at later options of the same kind:
take the id of the first `allow_always` option; when no `allow_always`
option exists or that first one's id is falsy, take the id of the first
`allow_once` option; when that too is missing or falsy, fall back to the
first option's id whatever it is (`firstKind opts k` below is the first
`k`-kind option's id, `null` when no option of kind `k` exists); with an
empty options list the reply carries a `null` option id (still
`outcome: selected`, not an empty result). -/
theorem C6_permission_amended (s : BridgeState) (idv pv : JVal)
    (w : Option Int) :
    dispatch s (.obj [("id", idv),
        ("method", .str "session/request_permission"), ("params", pv)]) w =
      ⟨s, [(idv, .obj [("outcome", .str "selected"),
                       ("optionId", choosePermission
                         (optionsOf (pv.getD "options" (.arr []))))])]⟩ ∧
    (∀ opts : List JVal, (firstKind opts "allow_always").truthy = true →
      choosePermission opts = firstKind opts "allow_always") ∧
    (∀ opts : List JVal, (firstKind opts "allow_always").truthy = false →
      (firstKind opts "allow_once").truthy = true →
      choosePermission opts = firstKind opts "allow_once") ∧
    (∀ (o : JVal) (rest : List JVal),
      (firstKind (o :: rest) "allow_always").truthy = false →
      (firstKind (o :: rest) "allow_once").truthy = false →
      choosePermission (o :: rest) = o.getD "optionId" .null) ∧
    choosePermission [] = .null := by
  refine ⟨?_, ?_, ?_, ?_, rfl⟩
  · unfold dispatch
    simp [JVal.hasKey, JVal.get, JVal.getD, List.lookup, JVal.isStr]
  · intro opts h1
    simp [choosePermission, h1]
  · intro opts h1 h2
    simp [choosePermission, h1, h2]
  · intro o rest h1 h2
    simp [choosePermission, h1, h2]

/-- C6 witness: the three tiers of the choice, the fallthrough past a
falsy-id `allow_always` option straight to the first-option fallback
(skipping a later truthy `allow_always` option — the scan is not a
filtered pick), and the empty-options reply, all at concrete inputs. -/
theorem C6_permission_amended_witness :
    choosePermission
      [.obj [("kind", .str "allow_once"), ("optionId", .str "a")],
       .obj [("kind", .str "allow_always"), ("optionId", .str "b")]] =
      .str "b" ∧
    choosePermission
      [.obj [("kind", .str "allow_once"), ("optionId", .str "a")]] =
      .str "a" ∧
    choosePermission
      [.obj [("kind", .str "other"), ("optionId", .str "x")]] = .str "x" ∧
    choosePermission
      [.obj [("kind", .str "allow_always"), ("optionId", .str "")],
       .obj [("kind", .str "allow_always"), ("optionId", .str "z")]] =
      .str "" ∧
    dispatch bridge0 (.obj [("id", .num 7),
        ("method", .str "session/request_permission"),
        ("params", .obj [("options", .arr [])])]) none =
      ⟨bridge0, [(.num 7, .obj [("outcome", .str "selected"),
                                ("optionId", .null)])]⟩ := by
  have H := C6_permission_amended bridge0 (.num 7)
    (.obj [("options", .arr [])]) none
  refine ⟨?_, ?_, ?_, ?_, H.1.trans (by rfl)⟩
  · exact (H.2.1
      [.obj [("kind", .str "allow_once"), ("optionId", .str "a")],
       .obj [("kind", .str "allow_always"), ("optionId", .str "b")]]
      (by rfl)).trans (by rfl)
  · exact (H.2.2.1
      [.obj [("kind", .str "allow_once"), ("optionId", .str "a")]]
      (by rfl) (by rfl)).trans (by rfl)
  · exact (H.2.2.2.1
      (.obj [("kind", .str "other"), ("optionId", .str "x")]) []
      (by rfl) (by rfl)).trans (by rfl)
  · exact (H.2.2.2.1
      (.obj [("kind", .str "allow_always"), ("optionId", .str "")])
      [.obj [("kind", .str "allow_always"), ("optionId", .str "z")]]
      (by rfl) (by rfl)).trans (by rfl)

/-- C9: an inbound request `{id, method, params}` whose method is none of
the six served methods is answered under the same id with an empty
success result, with no state change. -/
theorem C9_unknown_method_empty_reply (s : BridgeState) (idv mv pv : JVal)
    (w : Option Int)
    (h : ∀ m ∈ (["terminal/create", "terminal/output",
        "terminal/wait_for_exit", "terminal/kill", "terminal/release",
        "session/request_permission"] : List String),
      mv.isStr m = false) :
    dispatch s (.obj [("id", idv), ("method", mv), ("params", pv)]) w =
      ⟨s, [(idv, .obj [])]⟩ := by
  have h1 := h "terminal/create" (by simp)
  have h2 := h "terminal/output" (by simp)
  have h3 := h "terminal/wait_for_exit" (by simp)
  have h4 := h "terminal/kill" (by simp)
  have h5 := h "terminal/release" (by simp)
  have h6 := h "session/request_permission" (by simp)
  unfold dispatch
  simp [JVal.hasKey, JVal.get, JVal.getD, List.lookup, h1, h2, h3, h4, h5, h6]

/-- C9 witness: a concrete unserved method (`fs/read_text_file`) gets the
empty success reply. -/
theorem C9_unknown_method_empty_reply_witness :
    dispatch bridge0 (.obj [("id", .num 5),
        ("method", .str "fs/read_text_file"), ("params", .obj [])]) none =
      ⟨bridge0, [(.num 5, .obj [])]⟩ := by
  refine C9_unknown_method_empty_reply bridge0 (.num 5)
    (.str "fs/read_text_file") (.obj []) none ?_
  intro m hm
  simp only [List.mem_cons, List.not_mem_nil, or_false] at hm
  rcases hm with rfl | rfl | rfl | rfl | rfl | rfl <;> rfl

/-! ## Theorems: read loop and facade calls -/

/-- C1: however the frame stream ends (EOF, read exception or subprocess
death all exit the while loop), every id still registered in the
pending-call table at loop exit has the close-sentinel `null` appended to
its queue by the final broadcast, so no blocked consumer waits forever. -/
theorem C1_read_loop_sentinel (s : BridgeState)
    (frames : List (JVal × Option Int)) (i : Nat) (q : List JVal)
    (h : (runFrames s frames).1.pending.lookup i = some q) :
    (read_loop s frames).1.pending.lookup i = some (q ++ [JVal.null]) := by
  show (broadcastSentinel (runFrames s frames).1.pending).lookup i = _
  rw [broadcastSentinel_lookup, h]
  rfl

/-- C1 witness: a stream delivering one chunk for the single pending call
and then dying leaves that call's queue holding the chunk followed by the
close-sentinel. -/
theorem C1_read_loop_sentinel_witness :
    (read_loop bridge1 [(chunkFrame, none)]).1.pending.lookup 3 =
      some [chunkNorm, JVal.null] :=
  C1_read_loop_sentinel bridge1 [(chunkFrame, none)] 3 [chunkNorm] rfl

/-- Lemma: `prompt`'s consumption loop on a run with no terminating item (no
close-sentinel, no `"result"`-typed dict) accumulates exactly the
text-bearing chunks. -/
theorem promptLoop_no_terminal (delivered : List JVal) (acc : List JVal)
    (h : ∀ item ∈ delivered, isTerminalItem item = false) :
    promptLoop delivered acc = acc ++ textChunks delivered := by
  induction delivered generalizing acc with
  | nil => simp [promptLoop, textChunks]
  | cons item rest ih =>
      have hhead := h item (by simp)
      have htail : ∀ x ∈ rest, isTerminalItem x = false :=
        fun x hx => h x (by simp [hx])
      cases item with
      | null => simp [isTerminalItem] at hhead
      | obj fs =>
          have hres : ((JVal.obj fs).getD "type" .null).isStr "result" = false := by
            simpa [isTerminalItem] using hhead
          cases hext : extract_text (.obj fs) with
          | none =>
              simp [promptLoop, hres, hext, textChunks, ih _ htail]
          | some t =>
              by_cases htr : t.truthy
              · simp [promptLoop, hres, hext, htr, textChunks, ih _ htail]
              · simp only [Bool.not_eq_true] at htr
                simp [promptLoop, hres, hext, htr, textChunks, ih _ htail]
      | str c => simp [promptLoop, textChunks, ih _ htail]
      | bool b => simp [promptLoop, textChunks, ih _ htail]
      | num n => simp [promptLoop, textChunks, ih _ htail]
      | arr xs => simp [promptLoop, textChunks, ih _ htail]

/-- C7: when the delivered run ends by timeout (no close-sentinel and no
final `"result"` arrived), `prompt` does not raise: it returns the
concatenation of the text-bearing chunks accumulated so far (possibly the
empty string, e.g. on an empty run), and its entry is removed from the
pending-call table. -/
theorem C7_prompt_timeout (s : BridgeState) (delivered : List JVal)
    (h : ∀ item ∈ delivered, isTerminalItem item = false) :
    (prompt s delivered).1 = pyJoin (textChunks delivered) ∧
    (prompt s []).1 = "" ∧
    (prompt s delivered).2.pending.lookup (s.msgId + 1) = none := by
  refine ⟨?_, rfl, ?_⟩
  · show pyJoin (promptLoop delivered []) = _
    rw [promptLoop_no_terminal delivered [] h]
    rfl
  · show (popQ _ (s.msgId + 1)).lookup (s.msgId + 1) = none
    exact popQ_lookup _ _

/-- C7 witness: two text-bearing chunks delivered, then a timeout. -/
theorem C7_prompt_timeout_witness :
    (prompt bridge0
      [.obj [("type", .str "AgentMessageChunk"), ("content", .str "he")],
       .str "llo"]).1 = "hello" ∧
    (prompt bridge0
      [.obj [("type", .str "AgentMessageChunk"), ("content", .str "he")],
       .str "llo"]).2.pending.lookup 1 = none := by
  have H := C7_prompt_timeout bridge0
    [.obj [("type", .str "AgentMessageChunk"), ("content", .str "he")],
     .str "llo"]
    (by
      intro item him
      simp only [List.mem_cons, List.not_mem_nil, or_false] at him
      rcases him with rfl | rfl <;> rfl)
  exact ⟨H.1.trans (by rfl), H.2.2⟩

/-- C8 counterexample: an error-wrapped dict does not terminate
`prompt_stream` — a chunk delivered after it is still yielded, so the
claim's "immediate stream termination" fails at this input. -/
theorem C8_counterexample :
    prompt_stream [.obj [("error", .str "boom")],
                   .obj [("type", .str "AgentMessageChunk"),
                         ("content", .str "more")]] =
      [.obj [("error", .str "boom")],
       .obj [("type", .str "AgentMessageChunk"),
             ("content", .str "more")]] ∧
    prompt_stream [.obj [("error", .str "boom")],
                   .obj [("type", .str "AgentMessageChunk"),
                         ("content", .str "more")]] ≠
      [.obj [("error", .str "boom")]] ∧
    prompt_stream [.obj [("error", .str "boom")],
                   .obj [("type", .str "AgentMessageChunk"),
                         ("content", .str "more")]] ≠ ([] : List JVal) := by
  have h1 : prompt_stream [.obj [("error", .str "boom")],
      .obj [("type", .str "AgentMessageChunk"),
            ("content", .str "more")]] =
      [.obj [("error", .str "boom")],
       .obj [("type", .str "AgentMessageChunk"),
             ("content", .str "more")]] := rfl
  refine ⟨h1, ?_, ?_⟩ <;> rw [h1] <;> intro h <;> simp at h

/-- C8 (amended): a response carrying an `error` field consumed by the
blocking `_request` helper surfaces as a runtime error wrapping the
remote payload; `prompt_stream`, by contrast, yields the error-wrapped
dict as an ordinary stream item and keeps streaming — it terminates only
at the close-sentinel (or by timeout, the end of the run) — while
`prompt`'s loop skips the error dict without contributing text. -/
theorem C8_error_surfacing_amended (e : JVal) (rest acc : List JVal) :
    (∀ r : JVal,
      (match r with | .obj _ => r.hasKey "error" | _ => false) = true →
      request (some r) = .rpcError (r.getD "error" .null)) ∧
    request (some (.obj [("error", e)])) = .rpcError e ∧
    prompt_stream (.obj [("error", e)] :: rest) =
      .obj [("error", e)] :: prompt_stream rest ∧
    prompt_stream (JVal.null :: rest) = [] ∧
    promptLoop (.obj [("error", e)] :: rest) acc = promptLoop rest acc := by
  refine ⟨?_, rfl, rfl, rfl, rfl⟩
  intro r hr
  simp [request, hr]

/-- C8 witness: the `_request` hypothesis discharged at a concrete error
response. -/
theorem C8_error_surfacing_amended_witness :
    request (some (.obj [("error", .str "x"), ("data", .num 1)])) =
      .rpcError (.str "x") := by
  have H := C8_error_surfacing_amended (.str "x") [] []
  exact (H.1 (.obj [("error", .str "x"), ("data", .num 1)]) rfl).trans (by rfl)

/-! ## Theorems: TerminalManager -/

/-- If a key does not resolve in an association list, filtering that key
out is the identity. -/
theorem lookup_none_filter_ne {α : Type} (ts : List (String × α)) (tid : String)
    (h : ts.lookup tid = none) :
    ts.filter (fun kv => kv.1 ≠ tid) = ts := by
  induction ts with
  | nil => rfl
  | cons kv rest ih =>
      obtain ⟨k, v⟩ := kv
      by_cases hk : tid == k
      · simp [List.lookup, hk] at h
      · have h' : rest.lookup tid = none := by
          simpa [List.lookup, hk] using h
        have hne : k ≠ tid := fun he => by simp [he] at hk
        rw [List.filter_cons_of_pos (by simpa using hne), ih h']

set_option maxRecDepth 8000 in
/-- C2: after each chunk processed by a terminal's reader thread the output
buffer's length never exceeds the cap (bytes past it are dropped), the cap
itself is unchanged, the `truncated` flag is monotone (once true it stays
true), an unset `maxOutputBytes` defaults to 1,000,000, and concretely with
cap 100 and 250 bytes written `get_output` reports a string of length 100
and `truncated == true`. -/
theorem C2_output_cap_invariant (t : Terminal) (chunk : List Nat) :
    (readerStep t chunk).output.length ≤ t.maxBytes ∧
    (readerStep t chunk).maxBytes = t.maxBytes ∧
    (t.truncated = true → (readerStep t chunk).truncated = true) ∧
    capOrDefault none = 1000000 ∧
    ((TerminalManager.get_output
        (feedChunk (TerminalManager.create [] "t1" (some 100)) "t1"
          (List.replicate 250 65)) "t1").getD "truncated" .null = .bool true ∧
      ∃ s : String,
        (TerminalManager.get_output
          (feedChunk (TerminalManager.create [] "t1" (some 100)) "t1"
            (List.replicate 250 65)) "t1").getD "output" .null = .str s ∧
        s.length = 100) := by
  refine ⟨?_, ?_, ?_, rfl, ?_, ?_⟩
  · unfold readerStep
    split
    · rw [List.length_take]; exact Nat.min_le_left _ _
    · next hle =>
        show (t.output ++ chunk).length ≤ t.maxBytes
        omega
  · unfold readerStep
    split <;> rfl
  · intro h
    unfold readerStep
    split
    · rfl
    · exact h
  · rfl
  · exact ⟨String.mk (List.replicate 100 'A'), by rfl, by rfl⟩

/-- C2 witness: the truncated-monotonicity hypothesis discharged at a
concrete already-truncated terminal. -/
theorem C2_output_cap_invariant_witness :
    (readerStep
      { output := [1], maxBytes := 3, truncated := true, exitCode := none }
      [2, 3, 4]).truncated = true :=
  (C2_output_cap_invariant
    { output := [1], maxBytes := 3, truncated := true, exitCode := none }
    [2, 3, 4]).2.2.1 rfl

/-- C10: every `TerminalManager` operation is total on an id absent from the
registry: `get_output` answers `{"output": "", "exitCode": -1,
"truncated": False}`, `wait_for_exit` answers `{"exitCode": -1}` whatever
the (never-consulted) wait outcome would be, and `kill` and `release`
leave the registry unchanged and send no signal. -/
theorem C10_missing_terminal_total (ts : TerminalRegistry) (tid : String)
    (h : ts.lookup tid = none) :
    TerminalManager.get_output ts tid =
      .obj [("output", .str ""), ("exitCode", .num (-1)),
            ("truncated", .bool false)] ∧
    (∀ w, TerminalManager.wait_for_exit ts tid w =
      .obj [("exitCode", .num (-1))]) ∧
    TerminalManager.kill ts tid = (ts, false) ∧
    TerminalManager.release ts tid = (ts, false) := by
  refine ⟨?_, ?_, ?_, ?_⟩
  · unfold TerminalManager.get_output; rw [h]
  · intro w; unfold TerminalManager.wait_for_exit; rw [h]
  · unfold TerminalManager.kill; rw [h]
  · unfold TerminalManager.release TerminalManager.kill
    simp only [h, lookup_none_filter_ne ts tid h]

/-- C10 witness: the four answers at a concrete one-entry registry queried
with an id that is not registered. -/
theorem C10_missing_terminal_total_witness :
    TerminalManager.get_output
      [("a", { output := [65], maxBytes := 9, truncated := false,
               exitCode := some 0 })] "b" =
      .obj [("output", .str ""), ("exitCode", .num (-1)),
            ("truncated", .bool false)] ∧
    TerminalManager.wait_for_exit
      [("a", { output := [65], maxBytes := 9, truncated := false,
               exitCode := some 0 })] "b" (some 7) =
      .obj [("exitCode", .num (-1))] ∧
    TerminalManager.kill
      [("a", { output := [65], maxBytes := 9, truncated := false,
               exitCode := some 0 })] "b" =
      ([("a", { output := [65], maxBytes := 9, truncated := false,
                exitCode := some 0 })], false) ∧
    TerminalManager.release
      [("a", { output := [65], maxBytes := 9, truncated := false,
               exitCode := some 0 })] "b" =
      ([("a", { output := [65], maxBytes := 9, truncated := false,
                exitCode := some 0 })], false) := by
  have H := C10_missing_terminal_total
    [("a", { output := [65], maxBytes := 9, truncated := false,
             exitCode := some 0 })] "b" (by rfl)
  exact ⟨H.1, H.2.1 (some 7), H.2.2.1, H.2.2.2⟩

end KiroAcp
